import Mathlib

/-!
Shallow embedding of the tool-call resolution and execution loop of
`src/app.py` (classes `ZapierActionAPI` and `AssistantAPI`).

Python dictionaries are modelled as association lists looked up with
`dictGet` (mirroring `dict.get`), JSON values as the inductive `JVal`,
Python exceptions as `Except PyErr`, and the external world (HTTP calls,
`json.loads`, run creation, message listing) as an explicit `Env` record.
Side effects that the claims observe (sleeps, polls, action executions,
batch submissions, message retrievals) are reified into a `RunLog`.
-/

/-- JSON values, as produced by `response.json()` / `json.loads`. -/
inductive JVal where
  | jnull : JVal
  | jbool : Bool → JVal
  | jnum : Int → JVal
  | jstr : String → JVal
  | jarr : List JVal → JVal
  | jobj : List (String × JVal) → JVal

/-- Python `str.split(sep)` on a character list: splits at every separator,
keeping empty chunks, and yields one chunk even for the empty string. -/
def pySplitChars (sep : Char) : List Char → List (List Char)
  | [] => [[]]
  | c :: cs =>
    if c = sep then
      [] :: pySplitChars sep cs
    else
      match pySplitChars sep cs with
      | [] => [[c]]
      | t :: ts => (c :: t) :: ts

/-- Python `s.split(sep)` for a one-character separator. -/
def pySplitOn (sep : Char) (s : String) : List String :=
  (pySplitChars sep s.toList).map List.asString

/-- Python `s.startswith(pre)`. -/
def pyStartswith (s pre : String) : Bool :=
  List.isPrefixOf pre.toList s.toList

/-- Python `s.endswith(suf)`. -/
def pyEndswith (s suf : String) : Bool :=
  List.isSuffixOf suf.toList s.toList

/-- Python `str(x)` for an optional string (an f-string renders None as
the text None). -/
def pyStr : Option String → String
  | some s => s
  | none => "None"

/-- Python `dict.get(k)` on an association-list model of a dict. -/
def dictGet (d : List (String × α)) (k : String) : Option α :=
  (d.find? (fun e => e.1 == k)).map (fun e => e.2)

/-- One schema object under `components.schemas`: the keys
`type` / `properties` / `required` read by the translator, each optional. -/
structure SchemaObj where
  type : Option String
  properties : Option (List (String × JVal))
  required : Option (List String)

/-- The `schema` object of a media type entry; `ref` models its dollar-ref
key. -/
structure SchemaMeta where
  ref : Option String

/-- A media type object (`content` entry) with its optional `schema`. -/
structure MediaObj where
  schema : Option SchemaMeta

/-- A `requestBody` object: its `content` dict keyed by media type. -/
structure ReqBody where
  content : List (String × MediaObj)

/-- A `post` operation object: the keys the translator reads. -/
structure PostOp where
  operationId : Option String
  requestBody : Option ReqBody

/-- A path item: only its optional `post` operation is consulted. -/
structure PathItem where
  post : Option PostOp

/-- The OpenAPI document returned by `GET /dynamic/openapi.json`:
its `paths` dict and its `components.schemas` dict. -/
structure OpenApiDoc where
  paths : List (String × PathItem)
  schemas : List (String × SchemaObj)

/-- A tool's `function` payload as built by the translator:
`description` carries the action id (and is `None` when the guarded
fallback fires). -/
structure FunctionDef where
  name : String
  description : Option String
  parameters : JVal

/-- One formatted tool: a `type` tag plus the function payload. -/
structure Tool where
  type : String
  function : FunctionDef

/-- The assistant object as seen by `find_function_tool_by_name`:
its list of tools. -/
structure Assistant where
  tools : List Tool

/-- The path guard `path.startswith('/api/v1/exposed/') and path.endswith('/execute/')`. -/
def pathMatches (path : String) : Bool :=
  pyStartswith path ("/api/v1/exposed/") && pyEndswith path ("/execute/")

/-- The extraction `path.split('/')[4] if len(path.split('/')) > 4 else None`. -/
def actionIdOf (path : String) : Option String :=
  if 4 < (pySplitOn '/' path).length then
    some ((pySplitOn '/' path).getD 4 (""))
  else
    none

/-- The chain `post_method.get('requestBody', ...).get('content', ...)
.get('application/json', ...).get('schema', ...).get('dollar-ref', '')`:
each missing level defaults to an empty dict, the final default is `''`. -/
def requestBodyRefOf (post_method : PostOp) : String :=
  match post_method.requestBody with
  | none => ""
  | some rb =>
    match dictGet rb.content ("application/json") with
    | none => ""
    | some mo =>
      match mo.schema with
      | none => ""
      | some sm => sm.ref.getD ("")

/-- The `function_parameters` computation: `...` stays the empty dict
unless the request-body ref is a non-empty (truthy) string, in which case
the referenced schema is flattened into its `type` / `properties` /
`required` keys with defaults `'object'` / empty dict / empty list. -/
def resolveParams (doc : OpenApiDoc) (request_body_ref : String) : JVal :=
  if request_body_ref ≠ "" then
    let ref_key := (pySplitOn '/' request_body_ref).getLastD ("")
    let schema := (dictGet doc.schemas ref_key).getD ⟨none, none, none⟩
    JVal.jobj
      [(("type"), JVal.jstr (schema.type.getD ("object"))),
       (("properties"), JVal.jobj (schema.properties.getD [])),
       (("required"), JVal.jarr ((schema.required.getD []).map JVal.jstr))]
  else
    JVal.jobj []

/-- The per-path body of the translator loop: name from the post
operationId (default `''`), description from the action-id path segment,
parameters from the resolved request-body schema. -/
def formatTool (doc : OpenApiDoc) (path : String) (path_item : PathItem) : Tool :=
  let post_method := path_item.post.getD ⟨none, none⟩
  let name := post_method.operationId.getD ("")
  let action_id := actionIdOf path
  let request_body_ref := requestBodyRefOf post_method
  ⟨("function"), ⟨name, action_id, resolveParams doc request_body_ref⟩⟩

/-- The translator loop over `openapi_schema['paths'].items()`: appends one
formatted tool for every path matching the exposed/execute convention. -/
def formatToolsGo (doc : OpenApiDoc) : List (String × PathItem) → List Tool
  | [] => []
  | e :: rest =>
    if pathMatches e.1 then
      formatTool doc e.1 e.2 :: formatToolsGo doc rest
    else
      formatToolsGo doc rest

/-- Embedding of `ZapierActionAPI.get_formatted_tools_from_openapi_schema`, applied to an
already-fetched document (the `GET /dynamic/openapi.json` fetch is factored
into the caller's environment). -/
def get_formatted_tools_from_openapi_schema (doc : OpenApiDoc) : List Tool :=
  formatToolsGo doc doc.paths

/-- The paths of a document that match the exposed/execute convention. -/
def matchingEntries (doc : OpenApiDoc) : List (String × PathItem) :=
  doc.paths.filter (fun e => pathMatches e.1)

/-- Python exceptions raised (or caught) in the embedded code. -/
inductive PyErr where
  | requestError : Nat → PyErr
  | actionExecutionError : Nat → PyErr
  | argumentParseError : PyErr
  | unboundLocalError : PyErr
deriving DecidableEq

/-- The external world: HTTP transport, `json.loads`, and the two
assistant-provider operations whose success the loop observes. -/
structure Env where
  httpGet : String → Nat × JVal
  httpPost : String → JVal → Nat × JVal
  parseJson : String → Option JVal
  createRunOk : Bool
  listMessagesOk : Bool

/-- The `ZapierActionAPI` instance state set up by `__init__`. -/
structure ZapierClient where
  api_key : String
  debug : Bool
  headers : List (String × String)
  base_url : String

/-- Embedding of `ZapierActionAPI._make_get_request`: GET the endpoint, raise
`requests.RequestException` on any non-200 status, else return the JSON
body. -/
def zapier_make_get_request (env : Env) (self : ZapierClient) (endpoint : String) :
    Except PyErr JVal :=
  let url := self.base_url ++ endpoint
  let r := env.httpGet url
  if r.1 ≠ 200 then Except.error (PyErr.requestError r.1) else Except.ok r.2

/-- Embedding of `ZapierActionAPI._check_api_key`: tries `GET /check/`; both outcomes
are only logged (the re-raise is commented out in the source), so the
method always returns normally. -/
def zapier_check_api_key (env : Env) (self : ZapierClient) : Except PyErr Unit :=
  match zapier_make_get_request env self ("/check/") with
  | Except.ok _ => Except.ok ()
  | Except.error _ => Except.ok ()

/-- Embedding of `ZapierActionAPI.__init__`: build the headers and base URL, then run
the initial key check; the constructor raises only if the check does. -/
def ZapierActionAPI_init (env : Env) (api_key : String) (debug : Bool) :
    Except PyErr ZapierClient :=
  let self : ZapierClient :=
    ⟨api_key, debug,
     [(("Content-Type"), ("application/json")), (("x-api-key"), api_key)],
     ("https://actions.zapier.com/api/v1")⟩
  match zapier_check_api_key env self with
  | Except.ok _ => Except.ok self
  | Except.error e => Except.error e

/-- Embedding of `ZapierActionAPI.execute_action`: POST the payload to the action URL;
200 returns the body, anything else raises. -/
def execute_action (env : Env) (self : ZapierClient) (action_id : String)
    (payload : JVal) : Except PyErr JVal :=
  let url := self.base_url ++ ("/dynamic/exposed/") ++ action_id ++ ("/execute/")
  let r := env.httpPost url payload
  if r.1 = 200 then Except.ok r.2 else Except.error (PyErr.actionExecutionError r.1)

/-- The scan of `ZapierActionAPI.find_function_tool_by_name` over the
assistant's tools: first tool whose type is `function` and whose function
name equals the requested name. -/
def findFunctionToolGo (tool_name : String) : List Tool → Option FunctionDef
  | [] => none
  | tool :: rest =>
    if tool.type = "function" ∧ tool.function.name = tool_name then
      some tool.function
    else
      findFunctionToolGo tool_name rest

/-- Embedding of `ZapierActionAPI.find_function_tool_by_name`. -/
def find_function_tool_by_name (tool_name : String) (assistant : Assistant) :
    Option FunctionDef :=
  findFunctionToolGo tool_name assistant.tools

/-- One pending tool call (`tool_call.id`, `tool_call.function.name`,
`tool_call.function.arguments`). -/
structure ToolCall where
  id : String
  funcName : String
  arguments : String

/-- One submitted output. `output` keeps the structured result; the
`json.dumps` serialization to text is elided since no caller inspects it. -/
structure ToolResult where
  tool_call_id : String
  output : JVal

/-- The loop of `ZapierActionAPI.execute_actions_from_assistant` over the
tool calls, carrying the `tool_results` accumulator plus a reified trace of
`execute_action` invocations. `json.loads` failure raises out of the
function (it is outside the try block); `execute_action` failure is caught
and the entry omitted; an unresolved tool name is logged and skipped. -/
def executeActionsGo (env : Env) (self : ZapierClient) (assistant_object : Assistant) :
    List ToolCall → List ToolResult → List (String × JVal) →
      Except PyErr (List ToolResult) × List (String × JVal)
  | [], acc, ex => (Except.ok acc, ex)
  | tc :: rest, acc, ex =>
    match find_function_tool_by_name tc.funcName assistant_object with
    | some function_tool =>
      let action_id := pyStr function_tool.description
      match env.parseJson tc.arguments with
      | none => (Except.error PyErr.argumentParseError, ex)
      | some arguments =>
        match execute_action env self action_id arguments with
        | Except.ok result =>
          executeActionsGo env self assistant_object rest
            (acc ++ [⟨tc.id, result⟩]) (ex ++ [(action_id, arguments)])
        | Except.error _ =>
          executeActionsGo env self assistant_object rest
            acc (ex ++ [(action_id, arguments)])
    | none => executeActionsGo env self assistant_object rest acc ex

/-- Embedding of `ZapierActionAPI.execute_actions_from_assistant`: processes the batch
of tool calls of a `requires_action` run and returns the collected
outputs, paired with the trace of attempted action executions. -/
def execute_actions_from_assistant (env : Env) (self : ZapierClient)
    (tool_calls : List ToolCall) (assistant_object : Assistant) :
    Except PyErr (List ToolResult) × List (String × JVal) :=
  executeActionsGo env self assistant_object tool_calls [] []

/-- One polled run as returned by `check_run_state`: its status string and
(for `requires_action`) its pending tool calls. -/
structure PolledRun where
  status : String
  tool_calls : List ToolCall

/-- Reified observable side effects of one `run_assistant` call. -/
structure RunLog where
  sleeps : List Nat
  polls : Nat
  executions : List (String × JVal)
  submissions : List (List ToolResult)
  retrievals : Nat

/-- The log before the loop starts. -/
def emptyRunLog : RunLog := ⟨[], 0, [], [], 0⟩

/-- The `return status_code` at the end of `run_assistant`: reading the
local raises `UnboundLocalError` when no branch ever assigned it. -/
def terminalReturn (status_code : Option (Option Nat)) (log : RunLog) :
    Option (Except PyErr (Option Nat) × RunLog) :=
  match status_code with
  | none => some (Except.error PyErr.unboundLocalError, log)
  | some v => some (Except.ok v, log)

/-- The polling `while running_state` loop of `AssistantAPI.run_assistant`,
driven by the finite trace of successive `check_run_state` results. Each
iteration sleeps 5 time-units then polls. `requires_action` runs the batch
(`run_zapier_action`) and submits its outputs; an exception from the batch
propagates out of the loop. `completed` assigns `status_code` from the
message retrieval and stops; `expired` / `canceled` / `failed` stop with
`status_code` still unassigned. An exhausted trace models a loop that is
still polling (`none`). -/
def runLoop (env : Env) (self : ZapierClient) (assistant : Assistant) :
    List PolledRun → Option (Option Nat) → RunLog →
      Option (Except PyErr (Option Nat) × RunLog)
  | [], _, _ => none
  | r :: rest, status_code, log =>
    let log1 : RunLog :=
      { log with sleeps := log.sleeps ++ [5], polls := log.polls + 1 }
    if r.status = "queued" then
      runLoop env self assistant rest status_code log1
    else if r.status = "in_progress" then
      runLoop env self assistant rest status_code log1
    else if r.status = "requires_action" then
      match execute_actions_from_assistant env self r.tool_calls assistant with
      | (Except.error e, ex) =>
        some (Except.error e, { log1 with executions := log1.executions ++ ex })
      | (Except.ok outs, ex) =>
        runLoop env self assistant rest status_code
          { log1 with
              executions := log1.executions ++ ex,
              submissions := log1.submissions ++ [outs] }
    else if r.status = "completed" then
      let sc : Option Nat := if env.listMessagesOk then some 200 else none
      terminalReturn (some sc) { log1 with retrievals := log1.retrievals + 1 }
    else if r.status = "expired" then
      terminalReturn status_code log1
    else if r.status = "canceled" then
      terminalReturn status_code log1
    else if r.status = "failed" then
      terminalReturn status_code log1
    else
      runLoop env self assistant rest status_code log1

/-- Embedding of `AssistantAPI.run_assistant`: create the run (a falsy creation result
returns None immediately), then poll until a terminal status. -/
def run_assistant (env : Env) (self : ZapierClient) (assistant : Assistant)
    (polls : List PolledRun) : Option (Except PyErr (Option Nat) × RunLog) :=
  if env.createRunOk then
    runLoop env self assistant polls none emptyRunLog
  else
    some (Except.ok none, emptyRunLog)

/-- The output produced for a tool call when its whole pipeline (resolve,
parse, execute) succeeds. -/
def succOut (env : Env) (self : ZapierClient) (assistant : Assistant)
    (tc : ToolCall) : Option ToolResult :=
  match find_function_tool_by_name tc.funcName assistant with
  | none => none
  | some function_tool =>
    match env.parseJson tc.arguments with
    | none => none
    | some arguments =>
      match execute_action env self (pyStr function_tool.description) arguments with
      | Except.ok result => some ⟨tc.id, result⟩
      | Except.error _ => none

/-- The `execute_action` invocation a tool call gives rise to, when it
resolves and its arguments parse. -/
def callExecuted (env : Env) (self : ZapierClient) (assistant : Assistant)
    (tc : ToolCall) : Option (String × JVal) :=
  match find_function_tool_by_name tc.funcName assistant with
  | none => none
  | some function_tool =>
    match env.parseJson tc.arguments with
    | none => none
    | some arguments => some (pyStr function_tool.description, arguments)

/-- Whether a resolvable, parseable tool call fails at the execution step. -/
def callFailsExec (env : Env) (self : ZapierClient) (assistant : Assistant)
    (tc : ToolCall) : Bool :=
  match find_function_tool_by_name tc.funcName assistant with
  | none => false
  | some function_tool =>
    match env.parseJson tc.arguments with
    | none => false
    | some arguments =>
      match execute_action env self (pyStr function_tool.description) arguments with
      | Except.ok _ => false
      | Except.error _ => true

/-- Properties dict of the worked spec example's schema. -/
def exSchemaProperties : List (String × JVal) :=
  [(("sheet"), JVal.jobj [(("type"), JVal.jstr ("string"))])]

/-- The referenced schema of the worked spec example. -/
def exSchemaObj : SchemaObj :=
  ⟨some ("object"), some exSchemaProperties, some [("sheet")]⟩

/-- The post operation of the worked spec example. -/
def exPost : PostOp :=
  ⟨some ("google_sheets_find_row"),
   some ⟨[(("application/json"),
           ⟨some ⟨some ("#/components/schemas/FindRowBody")⟩⟩)]⟩⟩

/-- The one-path catalog of the worked spec example. -/
def exDoc : OpenApiDoc :=
  ⟨[(("/api/v1/exposed/01ABC/execute/"), ⟨some exPost⟩)],
   [(("FindRowBody"), exSchemaObj)]⟩

/-- The function payload the translator emits for `exDoc`. -/
def exFn : FunctionDef :=
  ⟨("google_sheets_find_row"), some ("01ABC"),
   JVal.jobj
     [(("type"), JVal.jstr ("object")),
      (("properties"), JVal.jobj exSchemaProperties),
      (("required"), JVal.jarr [JVal.jstr ("sheet")])]⟩

/-- The tool the translator emits for `exDoc`. -/
def exTool : Tool := ⟨("function"), exFn⟩

/-- An assistant holding the tools translated from `exDoc`. -/
def exAssistant : Assistant := ⟨get_formatted_tools_from_openapi_schema exDoc⟩

/-- A matching path whose post operation has no request body. -/
def exDocNoBody : OpenApiDoc :=
  ⟨[(("/api/v1/exposed/01DEF/execute/"), ⟨some ⟨some ("op_no_body"), none⟩⟩)], []⟩

/-- A matching path whose path item has no post operation at all. -/
def exDocNoPost : OpenApiDoc :=
  ⟨[(("/api/v1/exposed/01GHI/execute/"), ⟨none⟩)], []⟩

/-- The client state `__init__` builds for key `k`. -/
def exClient : ZapierClient :=
  ⟨("k"), false,
   [(("Content-Type"), ("application/json")), (("x-api-key"), ("k"))],
   ("https://actions.zapier.com/api/v1")⟩

/-- Function payload of the first tool of the two-tool assistant. -/
def exFnA : FunctionDef := ⟨("t1"), some ("A1"), JVal.jobj []⟩

/-- Function payload of the second tool of the two-tool assistant. -/
def exFnB : FunctionDef := ⟨("t2"), some ("A2"), JVal.jobj []⟩

/-- A two-tool assistant used for the batch-processing claims. -/
def exBatchAssistant : Assistant :=
  ⟨[⟨("function"), exFnA⟩, ⟨("function"), exFnB⟩]⟩

/-- A tool call that resolves to the first tool with parseable args. -/
def exCallOne : ToolCall := ⟨("c1"), ("t1"), ("x")⟩

/-- A tool call that resolves to the second tool with parseable args. -/
def exCallTwo : ToolCall := ⟨("c2"), ("t2"), ("x")⟩

/-- A tool call that resolves but whose arguments do not parse. -/
def exCallBad : ToolCall := ⟨("c0"), ("t1"), ("bad")⟩

/-- An environment where every external operation succeeds and only the
argument text bad fails to parse. -/
def exEnvOk : Env :=
  ⟨fun _ => (200, JVal.jobj []),
   fun _ _ => (200, JVal.jstr ("ok")),
   fun s => if s = "bad" then none else some (JVal.jobj []),
   true, true⟩

/-- Like `exEnvOk`, but executing action A2 answers 500. -/
def exEnvOneFail : Env :=
  ⟨fun _ => (200, JVal.jobj []),
   fun url _ =>
     if url = "https://actions.zapier.com/api/v1/dynamic/exposed/A2/execute/" then
       (500, JVal.jstr ("err"))
     else
       (200, JVal.jstr ("ok")),
   fun s => if s = "bad" then none else some (JVal.jobj []),
   true, true⟩

/-- An environment whose GET endpoints all answer 403. -/
def exEnv403 : Env :=
  ⟨fun _ => (403, JVal.jnull),
   fun _ _ => (200, JVal.jnull),
   fun _ => none,
   true, true⟩

/-! ## Helper lemmas -/

theorem pySplitChars_ne_nil (sep : Char) (l : List Char) :
    pySplitChars sep l ≠ [] := by
  induction l with
  | nil => simp [pySplitChars]
  | cons c cs ih =>
    by_cases h : c = sep
    · simp [pySplitChars, h]
    · simp only [pySplitChars, if_neg h]
      cases hs : pySplitChars sep cs with
      | nil => simp
      | cons t ts => simp

theorem pySplitChars_append_length (sep : Char) (xs ys : List Char) :
    (pySplitChars sep (xs ++ ys)).length + 1
      = (pySplitChars sep xs).length + (pySplitChars sep ys).length := by
  induction xs with
  | nil =>
    simp only [List.nil_append, pySplitChars, List.length_cons, List.length_nil]
    omega
  | cons c cs ih =>
    by_cases h : c = sep
    · simp only [List.cons_append, pySplitChars, if_pos h, List.length_cons]
      simp only [List.append_eq] at ih ⊢
      omega
    · simp only [List.cons_append, pySplitChars, if_neg h]
      simp only [List.append_eq] at ih ⊢
      cases h1 : pySplitChars sep (cs ++ ys) with
      | nil => exact absurd h1 (pySplitChars_ne_nil sep (cs ++ ys))
      | cons t ts =>
        cases h2 : pySplitChars sep cs with
        | nil => exact absurd h2 (pySplitChars_ne_nil sep cs)
        | cons u us =>
          rw [h1, h2] at ih
          simp only [List.length_cons] at ih ⊢
          omega

theorem matching_path_segments (p : String)
    (hs : pyStartswith p ("/api/v1/exposed/") = true) :
    4 < (pySplitOn '/' p).length := by
  have hpre : ("/api/v1/exposed/").toList <+: p.toList :=
    List.isPrefixOf_iff_prefix.mp hs
  obtain ⟨t, ht⟩ := hpre
  have hlen : (pySplitChars '/' p.toList).length + 1
      = (pySplitChars '/' (("/api/v1/exposed/").toList)).length
        + (pySplitChars '/' t).length := by
    rw [← ht]
    exact pySplitChars_append_length '/' _ t
  have h5 : (pySplitChars '/' (("/api/v1/exposed/").toList)).length = 5 := by
    decide
  have hpos : 0 < (pySplitChars '/' t).length :=
    List.length_pos.mpr (pySplitChars_ne_nil '/' t)
  have : 4 < (pySplitChars '/' p.toList).length := by omega
  simpa [pySplitOn] using this

theorem actionIdOf_of_matching (p : String)
    (hs : pyStartswith p ("/api/v1/exposed/") = true) :
    actionIdOf p = some ((pySplitOn '/' p).getD 4 ("")) := by
  unfold actionIdOf
  rw [if_pos (matching_path_segments p hs)]

theorem formatToolsGo_eq_map (doc : OpenApiDoc) (ps : List (String × PathItem)) :
    formatToolsGo doc ps
      = (ps.filter (fun e => pathMatches e.1)).map (fun e => formatTool doc e.1 e.2) := by
  induction ps with
  | nil => simp [formatToolsGo]
  | cons e rest ih =>
    by_cases h : pathMatches e.1
    · simp [formatToolsGo, List.filter_cons, h, ih]
    · simp [formatToolsGo, List.filter_cons, h, ih]

theorem formatTool_description (doc : OpenApiDoc) (p : String) (item : PathItem)
    (hs : pyStartswith p ("/api/v1/exposed/") = true) :
    (formatTool doc p item).function.description
      = some ((pySplitOn '/' p).getD 4 ("")) :=
  actionIdOf_of_matching p hs

theorem formatTool_name (doc : OpenApiDoc) (p : String) (item : PathItem)
    (po : PostOp) (oid : String)
    (hpost : item.post = some po) (hoid : po.operationId = some oid) :
    (formatTool doc p item).function.name = oid := by
  show ((item.post.getD ⟨none, none⟩).operationId.getD ("")) = oid
  rw [hpost, Option.getD_some, hoid, Option.getD_some]

theorem mem_zip_map_self {α β : Type} (f : α → β) (l : List α) (a : α) (b : β)
    (h : (a, b) ∈ l.zip (l.map f)) : a ∈ l ∧ b = f a := by
  induction l with
  | nil => simp at h
  | cons x xs ih =>
    simp only [List.map_cons, List.zip_cons_cons, List.mem_cons, Prod.mk.injEq] at h
    rcases h with ⟨rfl, rfl⟩ | h
    · exact ⟨List.mem_cons_self _ _, rfl⟩
    · obtain ⟨h1, h2⟩ := ih h
      exact ⟨List.mem_cons_of_mem _ h1, h2⟩

theorem tools_all_function (doc : OpenApiDoc) :
    ∀ t ∈ get_formatted_tools_from_openapi_schema doc, t.type = "function" := by
  intro t ht
  rw [get_formatted_tools_from_openapi_schema, formatToolsGo_eq_map] at ht
  obtain ⟨e, _, rfl⟩ := List.mem_map.mp ht
  rfl

theorem findGo_roundtrip (tools : List Tool)
    (hall : ∀ u ∈ tools, u.type = "function")
    (hnd : (tools.map (fun u => u.function.name)).Nodup)
    (t : Tool) (ht : t ∈ tools) :
    findFunctionToolGo t.function.name tools = some t.function := by
  induction tools with
  | nil => simp at ht
  | cons u rest ih =>
    rcases List.mem_cons.mp ht with h | h
    · subst h
      unfold findFunctionToolGo
      rw [if_pos ⟨hall t (List.mem_cons_self _ _), rfl⟩]
    · have hmem : t.function.name ∈ rest.map (fun u => u.function.name) :=
        List.mem_map_of_mem _ h
      have hnotin := (List.nodup_cons.mp hnd).1
      have hne : ¬(u.type = "function" ∧ u.function.name = t.function.name) := by
        rintro ⟨_, h2⟩
        refine hnotin ?_
        show u.function.name ∈ rest.map (fun u => u.function.name)
        rw [h2]
        exact hmem
      unfold findFunctionToolGo
      rw [if_neg hne]
      exact ih (fun v hv => hall v (List.mem_cons_of_mem _ hv))
        (List.nodup_cons.mp hnd).2 h

theorem findGo_none (tools : List Tool) (nm : String)
    (h : ∀ t ∈ tools, t.type = "function" → t.function.name ≠ nm) :
    findFunctionToolGo nm tools = none := by
  induction tools with
  | nil => rfl
  | cons u rest ih =>
    have hc : ¬(u.type = "function" ∧ u.function.name = nm) := by
      rintro ⟨h1, h2⟩
      exact h u (List.mem_cons_self _ _) h1 h2
    unfold findFunctionToolGo
    rw [if_neg hc]
    exact ih fun v hv => h v (List.mem_cons_of_mem _ hv)

/-- C1: for every OpenAPI document, the translator produces exactly one
tool definition per path matching the exposed/execute convention, and the
tool paired with each matching path has description equal to the path's
fifth separator-delimited segment and name equal to the path's post
operationId. -/
theorem c1_translator_count_and_fields (doc : OpenApiDoc) :
    (get_formatted_tools_from_openapi_schema doc).length = (matchingEntries doc).length
      ∧ ∀ e t,
          (e, t) ∈ (matchingEntries doc).zip (get_formatted_tools_from_openapi_schema doc) →
          t.function.description = some ((pySplitOn '/' e.1).getD 4 (""))
            ∧ ∀ po oid, e.2.post = some po → po.operationId = some oid →
                t.function.name = oid := by
  have hmap : get_formatted_tools_from_openapi_schema doc
      = (matchingEntries doc).map (fun e => formatTool doc e.1 e.2) := by
    rw [get_formatted_tools_from_openapi_schema, formatToolsGo_eq_map]
    rfl
  constructor
  · rw [hmap, List.length_map]
  · intro e t hmem
    rw [hmap] at hmem
    obtain ⟨he, rfl⟩ := mem_zip_map_self _ _ _ _ hmem
    have he2 : e ∈ doc.paths.filter (fun e => pathMatches e.1) := he
    have hp : pathMatches e.1 = true := (List.mem_filter.mp he2).2
    have hs : pyStartswith e.1 ("/api/v1/exposed/") = true := by
      simp only [pathMatches, Bool.and_eq_true] at hp
      exact hp.1
    exact ⟨formatTool_description doc e.1 e.2 hs,
      fun po oid hpost hoid => formatTool_name doc e.1 e.2 po oid hpost hoid⟩

/-- The single matching entry of the worked spec example. -/
def exEntry : String × PathItem :=
  (("/api/v1/exposed/01ABC/execute/"), ⟨some exPost⟩)

/-- C1 witness: at the worked spec example the translator emits exactly
one tool whose description is the action id and whose name is the post
operationId. -/
theorem c1_translator_count_and_fields_witness :
    (get_formatted_tools_from_openapi_schema exDoc).length = (matchingEntries exDoc).length
      ∧ ((exEntry, exTool)
          ∈ (matchingEntries exDoc).zip (get_formatted_tools_from_openapi_schema exDoc))
      ∧ exTool.function.description = some ("01ABC")
      ∧ exTool.function.name = "google_sheets_find_row" := by
  have hmem : (exEntry, exTool)
      ∈ (matchingEntries exDoc).zip (get_formatted_tools_from_openapi_schema exDoc) :=
    List.mem_singleton.mpr rfl
  have h := c1_translator_count_and_fields exDoc
  refine ⟨h.1, hmem, ?_, ?_⟩
  · exact ((h.2 exEntry exTool hmem).1).trans (by decide)
  · exact (h.2 exEntry exTool hmem).2 exPost ("google_sheets_find_row") rfl rfl

/-- C2: resolving any translator-produced tool definition by its exact
name against the same tool list returns that definition (given the
catalog's unique-name invariant), and resolving a name with no match
returns None. -/
theorem c2_resolver_roundtrip_and_absence (doc : OpenApiDoc) :
    (((get_formatted_tools_from_openapi_schema doc).map (fun u => u.function.name)).Nodup →
      ∀ t ∈ get_formatted_tools_from_openapi_schema doc,
        find_function_tool_by_name t.function.name
            ⟨get_formatted_tools_from_openapi_schema doc⟩ = some t.function)
      ∧ ∀ (tools : List Tool) (nm : String),
          (∀ t ∈ tools, t.type = "function" → t.function.name ≠ nm) →
          find_function_tool_by_name nm ⟨tools⟩ = none := by
  constructor
  · intro hnd t ht
    exact findGo_roundtrip _ (tools_all_function doc) hnd t ht
  · intro tools nm h
    exact findGo_none tools nm h

/-- C2 witness: round-trip and absence at the worked spec example. -/
theorem c2_resolver_roundtrip_and_absence_witness :
    ((get_formatted_tools_from_openapi_schema exDoc).map (fun u => u.function.name)).Nodup
      ∧ find_function_tool_by_name ("google_sheets_find_row") exAssistant = some exFn
      ∧ find_function_tool_by_name ("zzz") exAssistant = none := by
  have hnd : ((get_formatted_tools_from_openapi_schema exDoc).map
      (fun u => u.function.name)).Nodup := by
    have h : (get_formatted_tools_from_openapi_schema exDoc).map
        (fun u => u.function.name) = [("google_sheets_find_row")] := rfl
    rw [h]
    exact List.nodup_singleton _
  refine ⟨hnd, ?_, ?_⟩
  · have hm : exTool ∈ get_formatted_tools_from_openapi_schema exDoc :=
      List.mem_singleton.mpr rfl
    exact (c2_resolver_roundtrip_and_absence exDoc).1 hnd exTool hm
  · refine (c2_resolver_roundtrip_and_absence exDoc).2 exAssistant.tools ("zzz") ?_
    intro t ht _
    have h : t = exTool := List.mem_singleton.mp ht
    rw [h]
    decide

/-- C7 counterexample: at a matching path whose post operation carries no
request-body schema reference, the emitted tool's parameters field is the
bare empty mapping, which is not the flattened three-key empty object
schema the claim describes. -/
theorem c7_counterexample_empty_params :
    (get_formatted_tools_from_openapi_schema exDocNoBody).map
        (fun t => t.function.parameters) = [JVal.jobj []]
      ∧ JVal.jobj []
          ≠ JVal.jobj
              [(("type"), JVal.jstr ("object")),
               (("properties"), JVal.jobj []),
               (("required"), JVal.jarr [])] := by
  constructor
  · rfl
  · intro h
    injection h with h1
    simp at h1

/-- C7 amended: a matching path whose post operation carries no
request-body schema reference is still emitted (not skipped), but its
parameters field is the empty mapping, the untouched initial value. -/
theorem c7_amended_empty_mapping (doc : OpenApiDoc) (p : String) (item : PathItem)
    (rest : List (String × PathItem))
    (hm : pathMatches p = true)
    (href : requestBodyRefOf (item.post.getD ⟨none, none⟩) = "") :
    formatToolsGo doc ((p, item) :: rest)
        = formatTool doc p item :: formatToolsGo doc rest
      ∧ (formatTool doc p item).function.parameters = JVal.jobj [] := by
  constructor
  · simp [formatToolsGo, hm]
  · show resolveParams doc (requestBodyRefOf (item.post.getD ⟨none, none⟩)) = JVal.jobj []
    rw [href]
    rfl

/-- C7 amended witness: the no-request-body example path is emitted with
empty-mapping parameters. -/
theorem c7_amended_empty_mapping_witness :
    pathMatches ("/api/v1/exposed/01DEF/execute/") = true
      ∧ formatToolsGo exDocNoBody
          [(("/api/v1/exposed/01DEF/execute/"), ⟨some ⟨some ("op_no_body"), none⟩⟩)]
          = [formatTool exDocNoBody ("/api/v1/exposed/01DEF/execute/")
              ⟨some ⟨some ("op_no_body"), none⟩⟩]
      ∧ (formatTool exDocNoBody ("/api/v1/exposed/01DEF/execute/")
          ⟨some ⟨some ("op_no_body"), none⟩⟩).function.parameters = JVal.jobj [] := by
  have h := c7_amended_empty_mapping exDocNoBody ("/api/v1/exposed/01DEF/execute/")
    ⟨some ⟨some ("op_no_body"), none⟩⟩ [] (by decide) (by decide)
  exact ⟨by decide, by rw [h.1]; rfl, h.2⟩

/-- C10: a matching path whose path item has no post entry is still
translated into one tool definition whose name is the defaulted empty
string and whose parameters are the empty mapping. -/
theorem c10_no_post_still_emitted (doc : OpenApiDoc) (p : String)
    (rest : List (String × PathItem))
    (hm : pathMatches p = true) :
    formatToolsGo doc ((p, PathItem.mk none) :: rest)
        = formatTool doc p (PathItem.mk none) :: formatToolsGo doc rest
      ∧ (formatTool doc p (PathItem.mk none)).function.name = ""
      ∧ (formatTool doc p (PathItem.mk none)).function.parameters = JVal.jobj [] := by
  refine ⟨?_, rfl, rfl⟩
  simp [formatToolsGo, hm]

/-- C10 witness: the post-less example path is emitted with empty name
and empty-mapping parameters. -/
theorem c10_no_post_still_emitted_witness :
    pathMatches ("/api/v1/exposed/01GHI/execute/") = true
      ∧ formatToolsGo exDocNoPost
          [(("/api/v1/exposed/01GHI/execute/"), PathItem.mk none)]
          = [formatTool exDocNoPost ("/api/v1/exposed/01GHI/execute/") (PathItem.mk none)]
      ∧ (formatTool exDocNoPost ("/api/v1/exposed/01GHI/execute/")
          (PathItem.mk none)).function.name = ""
      ∧ (formatTool exDocNoPost ("/api/v1/exposed/01GHI/execute/")
          (PathItem.mk none)).function.parameters = JVal.jobj [] := by
  have h := c10_no_post_still_emitted exDocNoPost ("/api/v1/exposed/01GHI/execute/")
    [] (by decide)
  exact ⟨by decide, by rw [h.1]; rfl, h.2.1, h.2.2⟩

theorem executeActionsGo_all_resolved (env : Env) (self : ZapierClient)
    (assistant : Assistant) (calls : List ToolCall)
    (h : ∀ c ∈ calls, (find_function_tool_by_name c.funcName assistant).isSome
        ∧ (env.parseJson c.arguments).isSome) :
    ∀ acc ex, executeActionsGo env self assistant calls acc ex
      = (Except.ok (acc ++ calls.filterMap (succOut env self assistant)),
         ex ++ calls.filterMap (callExecuted env self assistant)) := by
  induction calls with
  | nil =>
    intro acc ex
    simp [executeActionsGo]
  | cons tc rest ih =>
    intro acc ex
    obtain ⟨hf, hp⟩ := h tc (List.mem_cons_self _ _)
    obtain ⟨ft, hft⟩ := Option.isSome_iff_exists.mp hf
    obtain ⟨args, hargs⟩ := Option.isSome_iff_exists.mp hp
    have hrest := fun c hc => h c (List.mem_cons_of_mem _ hc)
    cases hex : execute_action env self (pyStr ft.description) args with
    | ok result =>
      simp only [executeActionsGo, hft, hargs, hex]
      rw [ih hrest _ _]
      simp [succOut, callExecuted, hft, hargs, hex]
    | error e =>
      simp only [executeActionsGo, hft, hargs, hex]
      rw [ih hrest _ _]
      simp [succOut, callExecuted, hft, hargs, hex]

theorem succOut_length_with_failures (env : Env) (self : ZapierClient)
    (assistant : Assistant) (calls : List ToolCall)
    (h : ∀ c ∈ calls, (find_function_tool_by_name c.funcName assistant).isSome
        ∧ (env.parseJson c.arguments).isSome) :
    (calls.filterMap (succOut env self assistant)).length
      + (calls.filter (callFailsExec env self assistant)).length = calls.length := by
  induction calls with
  | nil => rfl
  | cons tc rest ih =>
    obtain ⟨hf, hp⟩ := h tc (List.mem_cons_self _ _)
    obtain ⟨ft, hft⟩ := Option.isSome_iff_exists.mp hf
    obtain ⟨args, hargs⟩ := Option.isSome_iff_exists.mp hp
    have hrest := ih fun c hc => h c (List.mem_cons_of_mem _ hc)
    cases hex : execute_action env self (pyStr ft.description) args with
    | ok result =>
      simp [List.filterMap_cons, List.filter_cons, succOut, callFailsExec,
        hft, hargs, hex]
      omega
    | error e =>
      simp [List.filterMap_cons, List.filter_cons, succOut, callFailsExec,
        hft, hargs, hex]
      omega

theorem callExecuted_length (env : Env) (self : ZapierClient)
    (assistant : Assistant) (calls : List ToolCall)
    (h : ∀ c ∈ calls, (find_function_tool_by_name c.funcName assistant).isSome
        ∧ (env.parseJson c.arguments).isSome) :
    (calls.filterMap (callExecuted env self assistant)).length = calls.length := by
  induction calls with
  | nil => rfl
  | cons tc rest ih =>
    obtain ⟨hf, hp⟩ := h tc (List.mem_cons_self _ _)
    obtain ⟨ft, hft⟩ := Option.isSome_iff_exists.mp hf
    obtain ⟨args, hargs⟩ := Option.isSome_iff_exists.mp hp
    have hrest := ih fun c hc => h c (List.mem_cons_of_mem _ hc)
    simp only [List.filterMap_cons, callExecuted, hft, hargs, List.length_cons, hrest]

theorem executeActionsGo_parse_abort (env : Env) (self : ZapierClient)
    (assistant : Assistant) (tc : ToolCall) (rest : List ToolCall)
    (htc : (find_function_tool_by_name tc.funcName assistant).isSome)
    (hparse : env.parseJson tc.arguments = none) :
    ∀ pre, (∀ c ∈ pre, find_function_tool_by_name c.funcName assistant = none
        ∨ (env.parseJson c.arguments).isSome) →
      ∀ acc ex, (executeActionsGo env self assistant (pre ++ tc :: rest) acc ex).1
        = Except.error PyErr.argumentParseError := by
  intro pre
  induction pre with
  | nil =>
    intro _ acc ex
    obtain ⟨ft, hft⟩ := Option.isSome_iff_exists.mp htc
    simp [executeActionsGo, hft, hparse]
  | cons c pre' ih =>
    intro hpre acc ex
    have hc := hpre c (List.mem_cons_self _ _)
    have hpre' := fun d hd => hpre d (List.mem_cons_of_mem _ hd)
    rcases hc with hc | hc
    · simp only [List.cons_append, executeActionsGo, hc]
      exact ih hpre' acc ex
    · obtain ⟨args, hargs⟩ := Option.isSome_iff_exists.mp hc
      cases hfind : find_function_tool_by_name c.funcName assistant with
      | none =>
        simp only [List.cons_append, executeActionsGo, hfind]
        exact ih hpre' acc ex
      | some ft =>
        simp only [List.cons_append, executeActionsGo, hfind, hargs]
        cases hex : execute_action env self (pyStr ft.description) args with
        | ok r =>
          simp only [hex]
          exact ih hpre' _ _
        | error e =>
          simp only [hex]
          exact ih hpre' _ _

/-- C3 counterexample: in a two-call batch whose first call resolves but
carries unparseable arguments, the batch processor raises the parse error
past the batch and produces no output list at all, instead of skipping the
entry and continuing. -/
theorem c3_counterexample_parse_failure_propagates :
    (execute_actions_from_assistant exEnvOk exClient [exCallBad, exCallTwo]
        exBatchAssistant).1 = Except.error PyErr.argumentParseError
      ∧ ∀ outs, (execute_actions_from_assistant exEnvOk exClient [exCallBad, exCallTwo]
          exBatchAssistant).1 ≠ Except.ok outs := by
  constructor
  · rfl
  · intro outs h
    rw [show (execute_actions_from_assistant exEnvOk exClient [exCallBad, exCallTwo]
        exBatchAssistant).1 = Except.error PyErr.argumentParseError from rfl] at h
    exact Except.noConfusion h

/-- C3 amended: a tool call that resolves but whose arguments fail to
parse aborts the whole batch: the parse exception propagates out of
`execute_actions_from_assistant`, no output list is returned, and the
remaining calls are not processed (earlier calls may have been processed;
only unresolvable ones are skipped and continued past). -/
theorem c3_amended_parse_failure_aborts (env : Env) (self : ZapierClient)
    (assistant : Assistant) (pre : List ToolCall) (tc : ToolCall)
    (rest : List ToolCall)
    (hpre : ∀ c ∈ pre, find_function_tool_by_name c.funcName assistant = none
        ∨ (env.parseJson c.arguments).isSome)
    (htc : (find_function_tool_by_name tc.funcName assistant).isSome)
    (hparse : env.parseJson tc.arguments = none) :
    (execute_actions_from_assistant env self (pre ++ tc :: rest) assistant).1
      = Except.error PyErr.argumentParseError :=
  executeActionsGo_parse_abort env self assistant tc rest htc hparse pre hpre [] []

/-- C3 amended witness: the two-call batch with an unparseable first call
aborts with the parse error. -/
theorem c3_amended_parse_failure_aborts_witness :
    (∀ c ∈ ([] : List ToolCall),
        find_function_tool_by_name c.funcName exBatchAssistant = none
          ∨ (exEnvOk.parseJson c.arguments).isSome)
      ∧ (find_function_tool_by_name exCallBad.funcName exBatchAssistant).isSome
      ∧ exEnvOk.parseJson exCallBad.arguments = none
      ∧ (execute_actions_from_assistant exEnvOk exClient
          ([] ++ exCallBad :: [exCallTwo]) exBatchAssistant).1
          = Except.error PyErr.argumentParseError := by
  refine ⟨by simp, by decide, rfl, ?_⟩
  exact c3_amended_parse_failure_aborts exEnvOk exClient exBatchAssistant []
    exCallBad [exCallTwo] (by simp) (by decide) rfl

/-- C4: for a batch in which every call resolves and parses and exactly
one call fails at the execution step, the batch processor returns the
outputs of the successful calls (one fewer than the batch size) and
propagates no exception. -/
theorem c4_one_failure_batch (env : Env) (self : ZapierClient)
    (assistant : Assistant) (calls : List ToolCall)
    (hres : ∀ c ∈ calls, (find_function_tool_by_name c.funcName assistant).isSome
        ∧ (env.parseJson c.arguments).isSome)
    (hone : (calls.filter (callFailsExec env self assistant)).length = 1) :
    (execute_actions_from_assistant env self calls assistant).1
        = Except.ok (calls.filterMap (succOut env self assistant))
      ∧ (calls.filterMap (succOut env self assistant)).length = calls.length - 1 := by
  have hgo := executeActionsGo_all_resolved env self assistant calls hres [] []
  constructor
  · rw [execute_actions_from_assistant, hgo]
    simp
  · have hcount := succOut_length_with_failures env self assistant calls hres
    omega

/-- C4 witness: the two-call batch in which only action A2 fails yields
exactly one output and no exception. -/
theorem c4_one_failure_batch_witness :
    (∀ c ∈ [exCallOne, exCallTwo],
        (find_function_tool_by_name c.funcName exBatchAssistant).isSome
          ∧ (exEnvOneFail.parseJson c.arguments).isSome)
      ∧ ([exCallOne, exCallTwo].filter
          (callFailsExec exEnvOneFail exClient exBatchAssistant)).length = 1
      ∧ (execute_actions_from_assistant exEnvOneFail exClient [exCallOne, exCallTwo]
          exBatchAssistant).1
          = Except.ok ([exCallOne, exCallTwo].filterMap
              (succOut exEnvOneFail exClient exBatchAssistant))
      ∧ ([exCallOne, exCallTwo].filterMap
          (succOut exEnvOneFail exClient exBatchAssistant)).length
          = [exCallOne, exCallTwo].length - 1 := by
  refine ⟨by decide, by decide, ?_, ?_⟩
  · exact (c4_one_failure_batch exEnvOneFail exClient exBatchAssistant
      [exCallOne, exCallTwo] (by decide) (by decide)).1
  · exact (c4_one_failure_batch exEnvOneFail exClient exBatchAssistant
      [exCallOne, exCallTwo] (by decide) (by decide)).2

/-- C5: evaluating the run loop at the failing inputs. For a run whose
poll reports expired, canceled or failed, the loop does stop polling after
one poll and performs no message retrieval, but instead of returning a
terminal outcome it raises UnboundLocalError at the `return status_code`
line, since `status_code` is assigned only in the completed branch; the
completed branch itself performs exactly one retrieval and returns. -/
theorem c5_terminal_states_unbound_local :
    run_assistant exEnvOk exClient exAssistant [⟨("expired"), []⟩]
        = some (Except.error PyErr.unboundLocalError, ⟨[5], 1, [], [], 0⟩)
      ∧ run_assistant exEnvOk exClient exAssistant [⟨("canceled"), []⟩]
          = some (Except.error PyErr.unboundLocalError, ⟨[5], 1, [], [], 0⟩)
      ∧ run_assistant exEnvOk exClient exAssistant [⟨("failed"), []⟩]
          = some (Except.error PyErr.unboundLocalError, ⟨[5], 1, [], [], 0⟩)
      ∧ run_assistant exEnvOk exClient exAssistant [⟨("completed"), []⟩]
          = some (Except.ok (some 200), ⟨[5], 1, [], [], 1⟩) :=
  ⟨rfl, rfl, rfl, rfl⟩

/-- C6: for the polled status trace queued, in progress, requires action,
in progress, completed with a batch that resolves and parses, the loop
polls five times (at least twice), sleeps the fixed 5 time-units before
every poll, attempts each pending tool call exactly once in order, and
performs exactly one final message retrieval. -/
theorem c6_full_trace_counts (env : Env) (self : ZapierClient)
    (assistant : Assistant) (B : List ToolCall)
    (hc : env.createRunOk = true)
    (hres : ∀ c ∈ B, (find_function_tool_by_name c.funcName assistant).isSome
        ∧ (env.parseJson c.arguments).isSome) :
    ∃ res log,
      run_assistant env self assistant
          [⟨("queued"), []⟩, ⟨("in_progress"), []⟩, ⟨("requires_action"), B⟩,
           ⟨("in_progress"), []⟩, ⟨("completed"), []⟩]
        = some (Except.ok res, log)
      ∧ 2 ≤ log.polls
      ∧ log.polls = 5
      ∧ log.sleeps = List.replicate log.polls 5
      ∧ log.executions = B.filterMap (callExecuted env self assistant)
      ∧ log.executions.length = B.length
      ∧ log.retrievals = 1 := by
  refine ⟨if env.listMessagesOk then some 200 else none,
    ⟨[5, 5, 5, 5, 5], 5, B.filterMap (callExecuted env self assistant),
     [B.filterMap (succOut env self assistant)], 1⟩,
    ?_, by show (2 : Nat) ≤ 5; decide, rfl,
    by show [5, 5, 5, 5, 5] = List.replicate 5 5; decide, rfl,
    callExecuted_length env self assistant B hres, rfl⟩
  have hgo := executeActionsGo_all_resolved env self assistant B hres [] []
  simp only [run_assistant, hc, if_true, runLoop, emptyRunLog,
    execute_actions_from_assistant, hgo, terminalReturn]
  simp

/-- C6 witness: the concrete two-call batch (one call failing at
execution) is attempted exactly once per call along the full trace. -/
theorem c6_full_trace_counts_witness :
    exEnvOneFail.createRunOk = true
      ∧ (∀ c ∈ [exCallOne, exCallTwo],
          (find_function_tool_by_name c.funcName exBatchAssistant).isSome
            ∧ (exEnvOneFail.parseJson c.arguments).isSome)
      ∧ ∃ res log,
          run_assistant exEnvOneFail exClient exBatchAssistant
              [⟨("queued"), []⟩, ⟨("in_progress"), []⟩,
               ⟨("requires_action"), [exCallOne, exCallTwo]⟩,
               ⟨("in_progress"), []⟩, ⟨("completed"), []⟩]
            = some (Except.ok res, log)
          ∧ 2 ≤ log.polls
          ∧ log.polls = 5
          ∧ log.sleeps = List.replicate log.polls 5
          ∧ log.executions
              = [exCallOne, exCallTwo].filterMap
                  (callExecuted exEnvOneFail exClient exBatchAssistant)
          ∧ log.executions.length = [exCallOne, exCallTwo].length
          ∧ log.retrievals = 1 :=
  ⟨rfl, by decide,
   c6_full_trace_counts exEnvOneFail exClient exBatchAssistant
     [exCallOne, exCallTwo] rfl (by decide)⟩

theorem zapier_check_api_key_always_ok (env : Env) (self : ZapierClient) :
    zapier_check_api_key env self = Except.ok () := by
  unfold zapier_check_api_key
  cases h : zapier_make_get_request env self ("/check/") with
  | ok v => simp
  | error e => simp

/-- C8: when the credential check endpoint answers any non-200 status,
the constructor still completes normally with the fully initialized client
state and raises nothing. -/
theorem c8_invalid_key_nonfatal (env : Env) (api_key : String) (debug : Bool)
    (hbad : (env.httpGet (("https://actions.zapier.com/api/v1") ++ ("/check/"))).1 ≠ 200) :
    ZapierActionAPI_init env api_key debug
      = Except.ok
          ⟨api_key, debug,
           [(("Content-Type"), ("application/json")), (("x-api-key"), api_key)],
           ("https://actions.zapier.com/api/v1")⟩ := by
  simp only [ZapierActionAPI_init, zapier_check_api_key_always_ok]

/-- C8 witness: with every GET answering 403, construction for key k
completes normally. -/
theorem c8_invalid_key_nonfatal_witness :
    (exEnv403.httpGet (("https://actions.zapier.com/api/v1") ++ ("/check/"))).1 ≠ 200
      ∧ ZapierActionAPI_init exEnv403 ("k") false = Except.ok exClient :=
  ⟨by decide, c8_invalid_key_nonfatal exEnv403 ("k") false (by decide)⟩

/-- C9: for every path string that starts with the exposed prefix and
ends with the execute suffix, splitting on the separator yields strictly
more than 4 segments, so the guarded None fallback of the translator is
unreachable and the extracted action id is the (possibly empty) string at
segment index 4, never None. -/
theorem c9_action_id_guard_unreachable (p : String)
    (hs : pyStartswith p ("/api/v1/exposed/") = true)
    (he : pyEndswith p ("/execute/") = true) :
    4 < (pySplitOn '/' p).length
      ∧ actionIdOf p = some ((pySplitOn '/' p).getD 4 ("")) :=
  ⟨matching_path_segments p hs, actionIdOf_of_matching p hs⟩

/-- C9 witness: the guard and extraction at the concrete matching path
of the worked spec example. -/
theorem c9_action_id_guard_unreachable_witness :
    (pyStartswith ("/api/v1/exposed/01ABC/execute/") ("/api/v1/exposed/") = true)
      ∧ (pyEndswith ("/api/v1/exposed/01ABC/execute/") ("/execute/") = true)
      ∧ 4 < (pySplitOn '/' ("/api/v1/exposed/01ABC/execute/")).length
      ∧ actionIdOf ("/api/v1/exposed/01ABC/execute/") = some ("01ABC") := by
  refine ⟨by decide, by decide, ?_, ?_⟩
  · exact (c9_action_id_guard_unreachable _ (by decide) (by decide)).1
  · exact ((c9_action_id_guard_unreachable
      ("/api/v1/exposed/01ABC/execute/") (by decide) (by decide)).2).trans (by decide)
